import Mathlib

/-!
Verification of the attribute proxy/diff/apply engine of the `mixer` repository
(`src/mixer/blender_data/attributes.py`) and of the local blob cache
(`src/mixer/local_data.py`), as a shallow embedding in Lean 4.

The embedding translates the source functions `load_as_what`, `read_attribute`,
`write_attribute`, `apply_attribute`, `diff_attribute`,
`get_or_create_cache_file`, `get_cache_file_hash` and `create_cache_file`.
Collaborator code of the repository that is not under `src/`
(`mixer.blender_data.types`, the proxy classes, `RecursionGuard` from
`bpy_data_proxy.py`) is modelled from the specification; every such definition
carries a doc comment starting with `Modelled from the spec:`.

Python exceptions are modelled with `Except PyErr`; the mutable
`VisitState.recursion_guard` and the logger are modelled by threading a
`VisitState` value through every call.
-/

/-- Python exception classes that the translated code raises or catches.
Every constructor is a subclass of Python `Exception`, so the source's
bare `except Exception` handlers catch all of them. -/
inductive PyErr where
  | typeError
  | attributeError
  | valueError
  | assertionError
  | depthExceeded
  | otherError
deriving DecidableEq, Repr

/-- `LoadElementAs` from `attributes.py`: the three load policies of the
Type Classifier (`STRUCT = 0`, `ID_REF = 1`, `ID_DEF = 2`). -/
inductive LoadElementAs where
  | STRUCT
  | ID_REF
  | ID_DEF
deriving DecidableEq, Repr

/-- The rna class of a property object, as compared by `same_rna` in
`attributes.py`: a `bpy.types.Property` is a CollectionProperty, a
PointerProperty, or some other ("plain") property class. -/
inductive PropKind where
  | collection
  | pointer
  | plain
deriving DecidableEq, Repr

/-- The rna of a pointed-to or element struct type (`fixed_type.bl_rna`),
reduced to the one bit the code consults: whether
`issubclass(bl_rna_to_type(rna), bpy.types.ID)` holds (`is_ID_subclass_rna`). -/
structure TypeRna where
  isIdSubclass : Bool
deriving DecidableEq, Repr

/-- The category of an ID datablock, as consulted by `isinstance(attr, T.Mesh)`
in `load_as_what` and `isinstance(bl_instance, bpy.types.Collection)` in
`write_attribute`. -/
inductive IdCat where
  | mesh
  | collection
  | otherCat
deriving DecidableEq, Repr

/-- A `bpy.types.Property` (`attr_property` in the source).
`rnaKind` is the property's own `bl_rna` as far as `same_rna` compares it
(`none` models `attr_property.bl_rna is None`, the case guarded in
`read_attribute`); `rnaIsIdSubclass` is the value of
`is_ID_subclass_rna(attr_property.bl_rna)` when the rna is present;
`fixedType` is `attr_property.fixed_type.bl_rna` for collection and pointer
properties; `isReadonly` is `prop.is_readonly`. -/
structure BProperty where
  name : String
  rnaKind : Option PropKind
  rnaIsIdSubclass : Bool
  fixedType : TypeRna
  isReadonly : Bool
deriving DecidableEq, Repr

/-- A Python builtin value, the types accepted by `is_builtin` from
`mixer.blender_data.types` (not under `src/`; modelled from the spec
sentence "primitive/builtin, copy verbatim"). -/
inductive BBuiltin where
  | int (i : Int)
  | str (s : String)
  | bool (b : Bool)
  | pynone
deriving DecidableEq, Repr

mutual
/-- A live Blender value (`attr` in the source), dispatched on by
`read_attribute` exactly in the source's branch order.  The first four
constructors are the types accepted by `is_builtin`, `is_vector`,
`is_matrix` (from `mixer.blender_data.types`, not under `src/`; modelled
from the spec sentences on primitive, vector and matrix kinds) and
`T.bpy_prop_array`.  `propCollection` is a `T.bpy_prop_collection`;
`propGroup` a `T.PropertyGroup` instance; `idBlock` a `T.ID` datablock with
its `is_embedded_data` flag, category and name; `bstruct` any other
`T.bpy_struct`; `other` any value of none of these types. -/
inductive BValue where
  | builtin (b : BBuiltin)
  | vector (xs : List Int)
  | matrix (cols : List (List Int))
  | propArray (xs : List BBuiltin)
  | propCollection (elems : BList)
  | propGroup (fields : BFields)
  | idBlock (embedded : Bool) (cat : IdCat) (name : String) (fields : BFields)
  | bstruct (fields : BFields)
  | other (key : Nat)

/-- A list of live values, the elements of a `bpy_prop_collection`. -/
inductive BList where
  | nil
  | cons (v : BValue) (rest : BList)

/-- The named, property-described fields of a struct-like live value, as
exposed by the host's property reflection (spec §6). -/
inductive BFields where
  | cons (prop : BProperty) (v : BValue) (rest : BFields)
  | nil
end

mutual
/-- Structural equality on live values, modelling the Python `==` / `in`
tests used on them (`attr in root_ids`). -/
def bbeq : BValue → BValue → Bool
  | .builtin a, .builtin b => decide (a = b)
  | .vector a, .vector b => decide (a = b)
  | .matrix a, .matrix b => decide (a = b)
  | .propArray a, .propArray b => decide (a = b)
  | .propCollection a, .propCollection b => blistBeq a b
  | .propGroup a, .propGroup b => bfieldsBeq a b
  | .idBlock e1 c1 n1 f1, .idBlock e2 c2 n2 f2 =>
    decide (e1 = e2) && decide (c1 = c2) && decide (n1 = n2) && bfieldsBeq f1 f2
  | .bstruct a, .bstruct b => bfieldsBeq a b
  | .other a, .other b => decide (a = b)
  | _, _ => false

def blistBeq : BList → BList → Bool
  | .nil, .nil => true
  | .cons a as, .cons b bs => bbeq a b && blistBeq as bs
  | _, _ => false

def bfieldsBeq : BFields → BFields → Bool
  | .nil, .nil => true
  | .cons p a as, .cons q b bs => decide (p = q) && bbeq a b && bfieldsBeq as bs
  | _, _ => false
end

/-- Membership of a live value in the root id registry, modelling the
Python `attr in root_ids` test in `load_as_what`. -/
def memRoot (attr : BValue) : List BValue → Bool
  | [] => false
  | r :: rest => bbeq attr r || memRoot attr rest

/-- `isinstance(attr, T.Mesh)` from `load_as_what`: true exactly for an ID
datablock of the mesh category. -/
def BValue.isMeshValue : BValue → Bool
  | .idBlock _ .mesh _ _ => true
  | _ => false

/-- `same_rna(attr_property, T.CollectionProperty)` from `attributes.py`:
the property's own `bl_rna` equals the CollectionProperty rna.  A property
whose `bl_rna` is `None` compares unequal (Python `None == rna` is `False`). -/
def same_rna_collection (p : BProperty) : Bool :=
  p.rnaKind = some PropKind.collection

/-- `same_rna(attr_property, T.PointerProperty)` from `attributes.py`. -/
def same_rna_pointer (p : BProperty) : Bool :=
  p.rnaKind = some PropKind.pointer

/-- `load_as_what` from `attributes.py`, translated branch for branch.
Rule order as in the source: root-registry membership, collection
property, mesh value, then pointer resolution with the ID-subclass test.
For a property whose own `bl_rna` is `None`, the final
`is_ID_subclass_rna(attr_property.bl_rna)` call fails inside
`bl_rna_to_type` with an attribute error, which the source does not catch. -/
def load_as_what (attr_property : BProperty) (attr : BValue) (root_ids : List BValue) :
    Except PyErr LoadElementAs :=
  if memRoot attr root_ids then .ok .ID_REF
  else if same_rna_collection attr_property then
    if attr_property.fixedType.isIdSubclass then .ok .ID_REF
    else .ok .STRUCT
  else if attr.isMeshValue then .ok .ID_REF
  else if same_rna_pointer attr_property then
    if attr_property.fixedType.isIdSubclass then .ok .ID_DEF
    else .ok .STRUCT
  else
    match attr_property.rnaKind with
    | none => .error .attributeError
    | some _ =>
      if attr_property.rnaIsIdSubclass then .ok .ID_DEF
      else .ok .STRUCT

/-- Modelled from the spec: the Type Classifier's four-rule table of §4.1,
written from the spec's words for comparison with `load_as_what`.
Rule 1: value already in the registry, Reference.  Rule 2: collection
property, Reference for addressable-entity element types, else Struct.
Rule 3: mesh-like value, Reference.  Rule 4: resolve a pointer-like
property to its pointed-to type (else the attribute's own type); if that
type is in the addressable-entity category, Definition, else Struct. -/
def classify_spec (p : BProperty) (attr : BValue) (roots : List BValue) : LoadElementAs :=
  if memRoot attr roots then .ID_REF
  else if same_rna_collection p then
    if p.fixedType.isIdSubclass then .ID_REF else .STRUCT
  else if attr.isMeshValue then .ID_REF
  else
    let elemIsId := if same_rna_pointer p then p.fixedType.isIdSubclass else p.rnaIsIdSubclass
    if elemIsId then .ID_DEF else .STRUCT

/-!
Local blob cache (`src/mixer/local_data.py`).

The filesystem is modelled as the list of existing file paths; the running
environment (the data directory, which depends on an environment variable
and the temp directory) and the SHA-1 hex digest are passed as explicit
parameters, both deterministic within one process.
-/

/-- The set of existing files, modelling `Path.exists`. -/
def FileSys := List String

/-- `Path(p).exists()` over the modelled filesystem. -/
def pathExists (fs : FileSys) (p : String) : Bool :=
  List.contains fs p

/-- Split a character list on a separator character, used to model
`pathlib` name handling. -/
def splitChar (c : Char) : List Char → List (List Char)
  | [] => [[]]
  | x :: rest =>
    match splitChar c rest with
    | [] => [[]]
    | h :: t => if x = c then [] :: h :: t else (x :: h) :: t

/-- `Path(p).suffix`: the extension of the final path component, empty for
a bare name or a leading-dot name. -/
def pathSuffix (p : String) : String :=
  let base := (splitChar '/' p.data).getLastD []
  match splitChar '.' base with
  | [] => ""
  | [_] => ""
  | first :: rest =>
    if first = [] ∧ rest.length = 1 then ""
    else "." ++ String.mk (rest.getLastD [])

/-- `get_cache_file_hash` from `local_data.py`: the cache path is the data
directory joined with `images` and the SHA-1 hex digest of the path string
followed by the path's suffix. -/
def get_cache_file_hash (sha1 : String → String) (dataDir : String) (p : String) : String :=
  dataDir ++ "/images/" ++ (sha1 p ++ pathSuffix p)

/-- `create_cache_file` from `local_data.py`.  Its first statement is
`cache_path.parent.absolute().makedirs(parents=True)`; `pathlib.Path` has
no `makedirs` method, so attribute lookup raises `AttributeError` before
any filesystem write happens (the later statements `open(cache_path + ".metadata")`
and `f.write(path)` would likewise raise `TypeError` on a `Path`).  The
translation therefore fails with `attributeError` and leaves the
filesystem unchanged. -/
def create_cache_file (path cache_path : String) (data : List Nat) (fs : FileSys) :
    Except PyErr Unit × FileSys :=
  (.error .attributeError, fs)

/-- `get_or_create_cache_file` from `local_data.py`, translated branch for
branch: return the input path when it exists; otherwise derive the cache
path from the hash and create the cache file only when it is absent. -/
def get_or_create_cache_file (sha1 : String → String) (dataDir : String)
    (str_path : String) (data : List Nat) (fs : FileSys) : Except PyErr String × FileSys :=
  if pathExists fs str_path then (.ok str_path, fs)
  else
    let cache_path := get_cache_file_hash sha1 dataDir str_path
    if pathExists fs cache_path then (.ok cache_path, fs)
    else
      match create_cache_file str_path cache_path data fs with
      | (.ok _, fs') => (.ok cache_path, fs')
      | (.error e, fs') => (.error e, fs')

/-!
Proxy-side values, visit state and the Attribute Reader
(`src/mixer/blender_data/attributes.py`).
-/

mutual
/-- A value on the proxy (shadow) side: either a plain python value
returned by `read_attribute` (`scalar`, `seq`, `seqseq`, `arr`, `pnone`)
or an instance of one of the `Proxy` subclasses.  The proxy classes live
in modules that are not under `src/`; their payload shape is modelled from
the spec's Proxy variant table (§3): a StructProxy owns named child
proxies, a StructCollectionProxy owns elements, a DatablockCollectionProxy
and a DatablockRefProxy store identities only, a DatablockProxy owns a
full attribute subtree. -/
inductive PValue where
  | scalar (b : BBuiltin)
  | seq (xs : List Int)
  | seqseq (cols : List (List Int))
  | arr (xs : List BBuiltin)
  | pnone
  | structProxy (fields : PFields)
  | structCollectionProxy (elems : PList)
  | datablockCollectionProxy (ids : List String)
  | datablockProxy (name : String) (fields : PFields)
  | datablockRefProxy (name : String)

/-- Elements of a StructCollectionProxy. -/
inductive PList where
  | nil
  | cons (v : PValue) (rest : PList)

/-- Named children of a StructProxy or DatablockProxy. -/
inductive PFields where
  | cons (name : String) (v : PValue) (rest : PFields)
  | nil
end

/-- `isinstance(value, Proxy)`: true exactly for the five proxy variants. -/
def PValue.isProxy : PValue → Bool
  | .structProxy _ => true
  | .structCollectionProxy _ => true
  | .datablockCollectionProxy _ => true
  | .datablockProxy _ _ => true
  | .datablockRefProxy _ => true
  | _ => false

mutual
/-- Structural equality of proxy-side values, modelling the Python `!=`
comparison in `diff_attribute`. -/
def pbeq : PValue → PValue → Bool
  | .scalar a, .scalar b => decide (a = b)
  | .seq a, .seq b => decide (a = b)
  | .seqseq a, .seqseq b => decide (a = b)
  | .arr a, .arr b => decide (a = b)
  | .pnone, .pnone => true
  | .structProxy a, .structProxy b => pfieldsBeq a b
  | .structCollectionProxy a, .structCollectionProxy b => plistBeq a b
  | .datablockCollectionProxy a, .datablockCollectionProxy b => decide (a = b)
  | .datablockProxy n a, .datablockProxy m b => decide (n = m) && pfieldsBeq a b
  | .datablockRefProxy n, .datablockRefProxy m => decide (n = m)
  | _, _ => false

def plistBeq : PList → PList → Bool
  | .nil, .nil => true
  | .cons a as, .cons b bs => pbeq a b && plistBeq as bs
  | _, _ => false

def pfieldsBeq : PFields → PFields → Bool
  | .nil, .nil => true
  | .cons n a as, .cons m b bs => decide (n = m) && pbeq a b && pfieldsBeq as bs
  | _, _ => false
end

/-- `Delta` from `mixer.blender_data.proxy` (not under `src/`): the spec's
Delta is polymorphic over `Update(newValue)`, today the only produced
variant (`DeltaUpdate`). -/
inductive Delta where
  | update (v : PValue)

/-- The replacement value carried by a delta (`delta.value`). -/
def Delta.value : Delta → PValue
  | .update v => v

/-- `MAX_DEPTH` from `attributes.py`. -/
def MAX_DEPTH : Nat := 30

/-- The per-traversal visit state: the root id registry (read-only during
a traversal), the recursion guard's stack of property names, and the log
sink.  `RootIds` and `RecursionGuard` live in `bpy_data_proxy.py`, which
is not under `src/`; they are modelled from spec §3. -/
structure VisitState where
  rootIds : List BValue
  guardStack : List String
  logs : List String

/-- Modelled from the spec: `RecursionGuard.push` (bpy_data_proxy.py, not
under `src/`).  Spec §3: a stack of attribute names plus a maximum depth
constant; exceeding the depth is a local failure that must not corrupt
sibling traversals, and guard state is fully unwound on all exit paths.
Push therefore records the name before the depth check raises, so the
reader's finally-pop removes exactly the entry of the failed push. -/
def guardPush (vs : VisitState) (name : String) : VisitState :=
  { vs with guardStack := vs.guardStack ++ [name] }

/-- Modelled from the spec: `RecursionGuard.pop`, removing the most
recently pushed name. -/
def guardPop (vs : VisitState) : VisitState :=
  { vs with guardStack := vs.guardStack.dropLast }

/-- Whether the push that produced this guard stack exceeded `MAX_DEPTH`,
in which case `RecursionGuard.push` raises `DepthExceeded`. -/
def depthExceeded (vs : VisitState) : Bool :=
  MAX_DEPTH < vs.guardStack.length

/-- `logger.warning` and friends: append a message to the log sink. -/
def logWarn (vs : VisitState) (msg : String) : VisitState :=
  { vs with logs := vs.logs ++ [msg] }

/-- Modelled from the spec: the element property that
`StructCollectionProxy.load` (not under `src/`) hands to the recursive
element reads: a plain property of the collection's element type. -/
def elementProperty (p : BProperty) : BProperty :=
  { name := p.name, rnaKind := some PropKind.plain, rnaIsIdSubclass := false,
    fixedType := p.fixedType, isReadonly := false }

/-- Modelled from the spec: `DatablockCollectionProxy().load_as_IDref`
(not under `src/`) stores the identities of the referenced datablocks
only, owning nothing. -/
def idrefNames : BList → List String
  | .nil => []
  | .cons (.idBlock _ _ n _) rest => n :: idrefNames rest
  | .cons _ rest => "" :: idrefNames rest

mutual
/-- `read_attribute` from `attributes.py`, translated branch for branch.
The guard push is the first statement of the `try` block and the pop is in
`finally`, so the pop runs on every exit path, including the
`DepthExceeded` raised by the push itself.  The branch order is the
source's: builtin, vector, matrix, `bpy_prop_array`,
`bpy_prop_collection` (classifier, assertion, then struct-collection or
idref-collection load), then, for every remaining value type, the
CollectionProperty check, the `bl_rna is None` warning branch, and the
dynamic-type dispatch to StructProxy, DatablockProxy, DatablockRefProxy,
finally `raise ValueError` for a type that matches nothing.  The proxy
`load` constructions live in modules not under `src/` and recurse through
`read_attribute`; their recursion is modelled from the spec's Proxy table
(§3, §4.2). -/
def read_attribute (attr : BValue) (prop : BProperty) (vs : VisitState) :
    Except PyErr PValue × VisitState :=
  let vs1 := guardPush vs prop.name
  if depthExceeded vs1 then
    (.error .depthExceeded, guardPop vs1)
  else
    let step : Except PyErr PValue × VisitState :=
      match attr with
      | .builtin b => (.ok (.scalar b), vs1)
      | .vector xs => (.ok (.seq xs), vs1)
      | .matrix cols => (.ok (.seqseq cols), vs1)
      | .propArray xs => (.ok (.arr xs), vs1)
      | .propCollection elems =>
        match load_as_what prop (.propCollection elems) vs1.rootIds with
        | .error e => (.error e, vs1)
        | .ok la =>
          if la = .ID_DEF then (.error .assertionError, vs1)
          else if la = .STRUCT then
            match read_elems elems (elementProperty prop) vs1 with
            | (.ok ps, vs2) => (.ok (.structCollectionProxy ps), vs2)
            | (.error e, vs2) => (.error e, vs2)
          else
            (.ok (.datablockCollectionProxy (idrefNames elems)), vs1)
      | .propGroup fields =>
        if same_rna_collection prop then (.ok (.structCollectionProxy .nil), vs1)
        else if prop.rnaKind.isNone then (.ok .pnone, logWarn vs1 "not implemented attribute")
        else
          match read_fields fields vs1 with
          | (.ok pfs, vs2) => (.ok (.structProxy pfs), vs2)
          | (.error e, vs2) => (.error e, vs2)
      | .idBlock embedded _ name fields =>
        if same_rna_collection prop then (.ok (.structCollectionProxy .nil), vs1)
        else if prop.rnaKind.isNone then (.ok .pnone, logWarn vs1 "not implemented attribute")
        else if embedded then
          match read_fields fields vs1 with
          | (.ok pfs, vs2) => (.ok (.datablockProxy name pfs), vs2)
          | (.error e, vs2) => (.error e, vs2)
        else (.ok (.datablockRefProxy name), vs1)
      | .bstruct fields =>
        if same_rna_collection prop then (.ok (.structCollectionProxy .nil), vs1)
        else if prop.rnaKind.isNone then (.ok .pnone, logWarn vs1 "not implemented attribute")
        else
          match read_fields fields vs1 with
          | (.ok pfs, vs2) => (.ok (.structProxy pfs), vs2)
          | (.error e, vs2) => (.error e, vs2)
      | .other _ =>
        if same_rna_collection prop then (.ok (.structCollectionProxy .nil), vs1)
        else if prop.rnaKind.isNone then (.ok .pnone, logWarn vs1 "not implemented attribute")
        else (.error .valueError, vs1)
    (step.1, guardPop step.2)

/-- Modelled from the spec: the element loop of
`StructCollectionProxy.load` (not under `src/`), reading each element of
the collection through `read_attribute` and propagating its failures. -/
def read_elems (elems : BList) (p : BProperty) (vs : VisitState) :
    Except PyErr PList × VisitState :=
  match elems with
  | .nil => (.ok .nil, vs)
  | .cons v rest =>
    match read_attribute v p vs with
    | (.error e, vs') => (.error e, vs')
    | (.ok pv, vs') =>
      match read_elems rest p vs' with
      | (.error e, vs'') => (.error e, vs'')
      | (.ok ps, vs'') => (.ok (.cons pv ps), vs'')

/-- Modelled from the spec: the field loop of `StructProxy.load` and
`DatablockProxy.load` (not under `src/`), reading every readable field
through `read_attribute` and propagating its failures. -/
def read_fields (fields : BFields) (vs : VisitState) :
    Except PyErr PFields × VisitState :=
  match fields with
  | .nil => (.ok .nil, vs)
  | .cons p v rest =>
    match read_attribute v p vs with
    | (.error e, vs') => (.error e, vs')
    | (.ok pv, vs') =>
      match read_fields rest vs' with
      | (.error e, vs'') => (.error e, vs'')
      | (.ok pfs, vs'') => (.ok (.cons p.name pv pfs), vs'')
end

/-!
Attribute Writer, Delta Applier and Diff Engine
(`src/mixer/blender_data/attributes.py`).

The host's `setattr` and the proxy classes' `save`/`apply` methods (the
latter in modules not under `src/`) are host-side effects with open-ended
failure modes (spec §6); they enter the embedding as explicit outcome
parameters so that the theorems quantify over every behaviour they can
have, success or any `Exception` subclass.
-/

/-- A Python `Union[str, int]` attribute key. -/
inductive PyKey where
  | str (s : String)
  | int (n : Int)
deriving DecidableEq, Repr

/-- Lookup in `bl_instance.bl_rna.properties`. -/
def findFieldProp : BFields → String → Option BProperty
  | .nil, _ => none
  | .cons p _ rest, k => if p.name = k then some p else findFieldProp rest k

/-- `bl_instance.bl_rna.properties.get(key)` from `write_attribute`: a
struct-like live value exposes its declared properties; on any other value
the `bl_rna` attribute access raises `AttributeError`. -/
def lookupProp : BValue → String → Except PyErr (Option BProperty)
  | .propGroup fs, k => .ok (findFieldProp fs k)
  | .bstruct fs, k => .ok (findFieldProp fs k)
  | .idBlock _ _ _ fs, k => .ok (findFieldProp fs k)
  | _, _ => .error .attributeError

/-- The tolerated `AttributeError` case of `write_attribute`: the target
is the master collection and the key is its read-only `name`. -/
def isMasterCollectionCase (inst : BValue) (key : PyKey) : Bool :=
  match inst, key with
  | .idBlock _ .collection n _, .str s =>
    decide (n = "Master Collection") && decide (s = "name")
  | _, _ => false

/-- `write_attribute` from `attributes.py`, translated branch for branch.
`saveResult` is the outcome of `value.save(bl_instance, key, visit_state)`
when `value` is a proxy; `setattrResult` is the outcome of
`setattr(bl_instance, key, value)`.  The body runs under the source's
handlers: `except TypeError`, `except AttributeError` (with the master
collection special case) and the final `except Exception`, each of which
logs and returns; the inner `try` around `setattr` additionally absorbs
`TypeError` on its own. -/
def write_attribute (bl_instance : Option BValue) (key : PyKey) (value : PValue)
    (vs : VisitState) (saveResult : Except PyErr Unit) (setattrResult : Except PyErr Unit) :
    Except PyErr Unit × VisitState :=
  match bl_instance with
  | none => (.ok (), logWarn vs "unexpected write None attribute")
  | some inst =>
    let body : Except PyErr Unit × VisitState :=
      if value.isProxy then
        match saveResult with
        | .ok _ => (.ok (), vs)
        | .error e => (.error e, vs)
      else
        match key with
        | .int _ => (.error .assertionError, vs)
        | .str s =>
          match lookupProp inst s with
          | .error e => (.error e, vs)
          | .ok none => (.ok (), vs)
          | .ok (some p) =>
            if p.isReadonly then (.ok (), vs)
            else
              match setattrResult with
              | .ok _ => (.ok (), vs)
              | .error .typeError => (.ok (), logWarn vs "write attribute skipped")
              | .error e => (.error e, vs)
    match body with
    | (.ok _, vs') => (.ok (), vs')
    | (.error .typeError, vs') => (.ok (), logWarn vs' "write attribute skipped")
    | (.error .attributeError, vs') =>
      if isMasterCollectionCase inst key then (.ok (), vs')
      else (.ok (), logWarn vs' "write attribute skipped")
    | (.error _, vs') => (.ok (), logWarn vs' "write attribute skipped")

/-- `apply_attribute` from `attributes.py`, translated branch for branch.
A proxy shadow value delegates to `proxy_value.apply` (module not under
`src/`), whose outcome is the parameter `proxyApplyResult`; a failure
there reaches the outer handler, which logs and re-raises.  A non-proxy
shadow value assigns `delta.value` onto the live object when `to_blender`
is set, absorbing and logging any assignment failure, and returns
`delta.value` in every case. -/
def apply_attribute (parent : BValue) (key : PyKey) (proxy_value : PValue) (delta : Delta)
    (vs : VisitState) (to_blender : Bool)
    (proxyApplyResult : Except PyErr PValue) (setattrResult : Except PyErr Unit) :
    Except PyErr PValue × VisitState :=
  if proxy_value.isProxy then
    match proxyApplyResult with
    | .ok v => (.ok v, vs)
    | .error e => (.error e, logWarn vs "diff exception for attr")
  else
    if to_blender then
      match setattrResult with
      | .ok _ => (.ok delta.value, vs)
      | .error _ => (.ok delta.value, logWarn vs "apply_attribute setattr failed")
    else (.ok delta.value, vs)

/-- Modelled from the spec: the per-variant `diff` method of the proxy
classes (modules not under `src/`), to which `diff_attribute` delegates
when the shadow value is a proxy.  Spec §4.4: recursive, type-specific
equality of the proxy against the live value; modelled as re-reading the
live value and comparing structurally, producing an update delta on
inequality, with a read failure logged and re-raised as in the scalar
path. -/
def proxy_diff (value : PValue) (item : BValue) (item_property : BProperty)
    (vs : VisitState) : Except PyErr (Option Delta) × VisitState :=
  match read_attribute item item_property vs with
  | (.ok bv, vs') =>
    if pbeq bv value then (.ok none, vs')
    else (.ok (some (.update bv)), vs')
  | (.error e, vs') => (.error e, logWarn vs' "diff exception for attr")

/-- `diff_attribute` from `attributes.py`, translated branch for branch: a
proxy shadow value delegates to its own diff; otherwise the live value is
re-read through `read_attribute` and compared with Python `!=`, producing
`DeltaUpdate(blender_value)` on inequality and `None` on equality; an
exception during the read is logged and re-raised. -/
def diff_attribute (item : BValue) (item_property : BProperty) (value : PValue)
    (vs : VisitState) : Except PyErr (Option Delta) × VisitState :=
  if value.isProxy then proxy_diff value item item_property vs
  else
    match read_attribute item item_property vs with
    | (.ok bv, vs') =>
      if pbeq bv value then (.ok none, vs')
      else (.ok (some (.update bv)), vs')
    | (.error e, vs') => (.error e, logWarn vs' "diff exception for attr")

/-!
Theorems.
-/

/-- C1: for every collection-property attribute and every registry the Type
Classifier returns Reference or Struct, never Definition, so the assertion
`load_as != LoadElementAs.ID_DEF` guarding the collection branch of
`read_attribute` can never fail; this holds whether or not the element
type is an addressable-entity (ID) category. -/
theorem load_as_what_collection_never_id_def
    (p : BProperty) (attr : BValue) (roots : List BValue)
    (h : p.rnaKind = some PropKind.collection) :
    load_as_what p attr roots = .ok .ID_REF ∨ load_as_what p attr roots = .ok .STRUCT := by
  unfold load_as_what
  by_cases hm : memRoot attr roots
  · left; simp [hm]
  · have hc : same_rna_collection p = true := by
      simp [same_rna_collection, h]
    by_cases hf : p.fixedType.isIdSubclass
    · left; simp [hm, hc, hf]
    · right; simp [hm, hc, hf]

/-- Witness for C1 at a concrete collection property, value and registry. -/
theorem load_as_what_collection_never_id_def_witness :
    ({ name := "objects", rnaKind := some PropKind.collection, rnaIsIdSubclass := false,
       fixedType := ⟨true⟩, isReadonly := true } : BProperty).rnaKind
        = some PropKind.collection ∧
    (load_as_what
      { name := "objects", rnaKind := some PropKind.collection, rnaIsIdSubclass := false,
        fixedType := ⟨true⟩, isReadonly := true }
      (.propCollection .nil) [] = .ok .ID_REF ∨
     load_as_what
      { name := "objects", rnaKind := some PropKind.collection, rnaIsIdSubclass := false,
        fixedType := ⟨true⟩, isReadonly := true }
      (.propCollection .nil) [] = .ok .STRUCT) :=
  ⟨rfl, load_as_what_collection_never_id_def _ _ _ rfl⟩

/-- C3: over real property metadata (a property whose `bl_rna` is present),
the Type Classifier is total over the spec's four priority rules and
returns exactly the policy of the first matching rule: it never raises and
never falls into a fifth, silently defaulted case beyond rule 4's
else-Struct branch. -/
theorem load_as_what_total_matches_spec_table
    (p : BProperty) (attr : BValue) (roots : List BValue) (k : PropKind)
    (h : p.rnaKind = some k) :
    load_as_what p attr roots = .ok (classify_spec p attr roots) := by
  unfold load_as_what classify_spec
  by_cases hm : memRoot attr roots
  · simp [hm]
  · by_cases hc : same_rna_collection p
    · by_cases hf : p.fixedType.isIdSubclass <;> simp [hm, hc, hf]
    · by_cases hmesh : attr.isMeshValue
      · simp [hm, hc, hmesh]
      · by_cases hp : same_rna_pointer p
        · by_cases hf : p.fixedType.isIdSubclass <;> simp [hm, hc, hmesh, hp, hf]
        · by_cases hs : p.rnaIsIdSubclass <;> simp [hm, hc, hmesh, hp, hs, h]

/-- Witness for C3 at a concrete plain property and value. -/
theorem load_as_what_total_matches_spec_table_witness :
    ({ name := "show_axis_x", rnaKind := some PropKind.plain, rnaIsIdSubclass := false,
       fixedType := ⟨false⟩, isReadonly := false } : BProperty).rnaKind
        = some PropKind.plain ∧
    load_as_what
      { name := "show_axis_x", rnaKind := some PropKind.plain, rnaIsIdSubclass := false,
        fixedType := ⟨false⟩, isReadonly := false }
      (.builtin (.bool true)) []
      = .ok (classify_spec
          { name := "show_axis_x", rnaKind := some PropKind.plain, rnaIsIdSubclass := false,
            fixedType := ⟨false⟩, isReadonly := false }
          (.builtin (.bool true)) []) :=
  ⟨rfl, load_as_what_total_matches_spec_table _ _ _ PropKind.plain rfl⟩

/-- C9: at any input whose path does not exist and whose cache entry does
not exist yet, `get_or_create_cache_file` does not return a cache path at
all: `create_cache_file` calls the nonexistent `Path.makedirs` and raises
`AttributeError`, writing nothing.  Evaluation of the translated code at
the failing input. -/
theorem get_or_create_cache_file_raises_on_cold_cache :
    get_or_create_cache_file (fun _ => "c129b2ea77fd") "/tmp/mixer/data"
        "/tmp/missing.png" [1, 2, 3] []
      = (.error .attributeError, []) := by
  rfl

/-- C10: for every path string that names an existing file,
`get_or_create_cache_file` returns the input path unchanged and leaves the
filesystem unchanged, for every hash function, data directory and byte
payload (the bytes argument is ignored). -/
theorem get_or_create_cache_file_existing_path_identity
    (sha1 : String → String) (dataDir str_path : String) (data : List Nat) (fs : FileSys)
    (h : pathExists fs str_path = true) :
    get_or_create_cache_file sha1 dataDir str_path data fs = (.ok str_path, fs) := by
  unfold get_or_create_cache_file
  simp [h]

/-- Witness for C10 at a concrete existing path, with two different byte
payloads yielding the identical result. -/
theorem get_or_create_cache_file_existing_path_identity_witness :
    pathExists ["/tmp/tex.png"] "/tmp/tex.png" = true ∧
    get_or_create_cache_file (fun _ => "da39a3ee") "/data" "/tmp/tex.png" [7] ["/tmp/tex.png"]
      = (.ok "/tmp/tex.png", ["/tmp/tex.png"]) ∧
    get_or_create_cache_file (fun _ => "da39a3ee") "/data" "/tmp/tex.png" [9, 9] ["/tmp/tex.png"]
      = (.ok "/tmp/tex.png", ["/tmp/tex.png"]) :=
  ⟨by decide,
   get_or_create_cache_file_existing_path_identity _ _ _ _ _ (by decide),
   get_or_create_cache_file_existing_path_identity _ _ _ _ _ (by decide)⟩

mutual
theorem pbeq_refl : (v : PValue) → pbeq v v = true
  | .scalar a => by simp [pbeq]
  | .seq a => by simp [pbeq]
  | .seqseq a => by simp [pbeq]
  | .arr a => by simp [pbeq]
  | .pnone => by simp [pbeq]
  | .structProxy f => by simp [pbeq, pfieldsBeq_refl f]
  | .structCollectionProxy es => by simp [pbeq, plistBeq_refl es]
  | .datablockCollectionProxy ids => by simp [pbeq]
  | .datablockProxy n f => by simp [pbeq, pfieldsBeq_refl f]
  | .datablockRefProxy n => by simp [pbeq]

theorem plistBeq_refl : (es : PList) → plistBeq es es = true
  | .nil => by simp [plistBeq]
  | .cons v rest => by simp [plistBeq, pbeq_refl v, plistBeq_refl rest]

theorem pfieldsBeq_refl : (fs : PFields) → pfieldsBeq fs fs = true
  | .nil => by simp [pfieldsBeq]
  | .cons n v rest => by simp [pfieldsBeq, pbeq_refl v, pfieldsBeq_refl rest]
end


theorem logWarn_guard (vs : VisitState) (m : String) : (logWarn vs m).guardStack = vs.guardStack := rfl

theorem pop_push_guard (vs : VisitState) (n : String) (vs2 : VisitState)
    (h : vs2.guardStack = (guardPush vs n).guardStack) :
    (guardPop vs2).guardStack = vs.guardStack := by
  simp [guardPop, guardPush] at h ⊢
  simp [h]

mutual
theorem read_attribute_guard_aux (attr : BValue) (prop : BProperty) (vs : VisitState) :
    ((read_attribute attr prop vs).2).guardStack = vs.guardStack := by
  cases attr with
  | builtin b =>
    simp only [read_attribute]
    split
    · exact pop_push_guard vs prop.name _ rfl
    · exact pop_push_guard vs prop.name _ rfl
  | vector xs =>
    simp only [read_attribute]
    split
    · exact pop_push_guard vs prop.name _ rfl
    · exact pop_push_guard vs prop.name _ rfl
  | matrix cols =>
    simp only [read_attribute]
    split
    · exact pop_push_guard vs prop.name _ rfl
    · exact pop_push_guard vs prop.name _ rfl
  | propArray xs =>
    simp only [read_attribute]
    split
    · exact pop_push_guard vs prop.name _ rfl
    · exact pop_push_guard vs prop.name _ rfl
  | propCollection elems =>
    simp only [read_attribute]
    split
    · exact pop_push_guard vs prop.name _ rfl
    · apply pop_push_guard vs prop.name
      split
      · rfl
      · split
        · rfl
        · split
          · split
            · rename_i ps vs2 heq
              have h2 := read_elems_guard_aux elems (elementProperty prop) (guardPush vs prop.name)
              rw [heq] at h2
              exact h2
            · rename_i e vs2 heq
              have h2 := read_elems_guard_aux elems (elementProperty prop) (guardPush vs prop.name)
              rw [heq] at h2
              exact h2
          · rfl
  | propGroup fields =>
    simp only [read_attribute]
    split
    · exact pop_push_guard vs prop.name _ rfl
    · apply pop_push_guard vs prop.name
      split
      · rfl
      · split
        · exact logWarn_guard _ _
        · split
          · rename_i pfs vs2 heq
            have h2 := read_fields_guard_aux fields (guardPush vs prop.name)
            rw [heq] at h2
            exact h2
          · rename_i e vs2 heq
            have h2 := read_fields_guard_aux fields (guardPush vs prop.name)
            rw [heq] at h2
            exact h2
  | idBlock embedded cat name fields =>
    simp only [read_attribute]
    split
    · exact pop_push_guard vs prop.name _ rfl
    · apply pop_push_guard vs prop.name
      split
      · rfl
      · split
        · exact logWarn_guard _ _
        · split
          · split
            · rename_i pfs vs2 heq
              have h2 := read_fields_guard_aux fields (guardPush vs prop.name)
              rw [heq] at h2
              exact h2
            · rename_i e vs2 heq
              have h2 := read_fields_guard_aux fields (guardPush vs prop.name)
              rw [heq] at h2
              exact h2
          · rfl
  | bstruct fields =>
    simp only [read_attribute]
    split
    · exact pop_push_guard vs prop.name _ rfl
    · apply pop_push_guard vs prop.name
      split
      · rfl
      · split
        · exact logWarn_guard _ _
        · split
          · rename_i pfs vs2 heq
            have h2 := read_fields_guard_aux fields (guardPush vs prop.name)
            rw [heq] at h2
            exact h2
          · rename_i e vs2 heq
            have h2 := read_fields_guard_aux fields (guardPush vs prop.name)
            rw [heq] at h2
            exact h2
  | other k =>
    simp only [read_attribute]
    split
    · exact pop_push_guard vs prop.name _ rfl
    · apply pop_push_guard vs prop.name
      split
      · rfl
      · split
        · exact logWarn_guard _ _
        · rfl

theorem read_elems_guard_aux (elems : BList) (p : BProperty) (vs : VisitState) :
    ((read_elems elems p vs).2).guardStack = vs.guardStack := by
  cases elems with
  | nil => rfl
  | cons v rest =>
    simp only [read_elems]
    split
    · rename_i e vs1 heq
      have h1 := read_attribute_guard_aux v p vs
      rw [heq] at h1
      exact h1
    · rename_i pv vs1 heq
      have h1 := read_attribute_guard_aux v p vs
      rw [heq] at h1
      split
      · rename_i e vs2 heq2
        have h2 := read_elems_guard_aux rest p vs1
        rw [heq2] at h2
        exact h2.trans h1
      · rename_i ps vs2 heq2
        have h2 := read_elems_guard_aux rest p vs1
        rw [heq2] at h2
        exact h2.trans h1

theorem read_fields_guard_aux (fields : BFields) (vs : VisitState) :
    ((read_fields fields vs).2).guardStack = vs.guardStack := by
  cases fields with
  | nil => rfl
  | cons p v rest =>
    simp only [read_fields]
    split
    · rename_i e vs1 heq
      have h1 := read_attribute_guard_aux v p vs
      rw [heq] at h1
      exact h1
    · rename_i pv vs1 heq
      have h1 := read_attribute_guard_aux v p vs
      rw [heq] at h1
      split
      · rename_i e vs2 heq2
        have h2 := read_fields_guard_aux rest vs1
        rw [heq2] at h2
        exact h2.trans h1
      · rename_i pfs vs2 heq2
        have h2 := read_fields_guard_aux rest vs1
        rw [heq2] at h2
        exact h2.trans h1
end

/-- C2: for every call to `read_attribute`, whether it returns normally or
exits with an exception (including the `DepthExceeded` raised by the
guard's own push), the recursion guard receives exactly one pop matching
each recorded push, so after `read_attribute` exits the guard stack equals
the stack at entry; instantiated at an empty entry stack this says the
guard is empty after a whole traversal, successful or failing. -/
theorem read_attribute_guard_stack_restored (attr : BValue) (prop : BProperty)
    (vs : VisitState) :
    ((read_attribute attr prop vs).2).guardStack = vs.guardStack :=
  read_attribute_guard_aux attr prop vs

/-- C4: `write_attribute` never propagates an exception to its caller, for
every target, key, value, visit state and every outcome of the host-side
proxy save and assignment: an absent or read-only property is skipped, and
every failure (type mismatch, stale enum default, attribute error, any
other `Exception`) is absorbed by the handlers. -/
theorem write_attribute_never_raises (bl_instance : Option BValue) (key : PyKey)
    (value : PValue) (vs : VisitState) (saveResult setattrResult : Except PyErr Unit) :
    (write_attribute bl_instance key value vs saveResult setattrResult).1 = .ok () := by
  unfold write_attribute
  cases bl_instance with
  | none => rfl
  | some inst =>
    dsimp only
    split
    · rfl
    · rfl
    · split <;> rfl
    · rfl

/-- C5 counterexample: the claim says `read_attribute` never raises because
of an unsupported attribute kind, but at a value of a type matching no
supported structural kind whose property metadata carries a `bl_rna`, the
source's final statement `raise ValueError(...)` is reached and the call
raises. -/
theorem read_attribute_raises_on_unsupported_type :
    (read_attribute (.other 0)
      { name := "x", rnaKind := some PropKind.plain, rnaIsIdSubclass := false,
        fixedType := ⟨false⟩, isReadonly := false }
      ⟨[], [], []⟩).1 = .error .valueError := by
  rfl

/-- C5 amended: for an attribute value of a type matching no supported
structural kind (below the depth limit), `read_attribute` logs a warning
and returns None only when the property metadata has no `bl_rna`; when the
metadata is present (and not a CollectionProperty), it raises `ValueError`
instead — an unsupported attribute kind with metadata is a fatal error. -/
theorem read_attribute_unsupported_amended (k : Nat) (prop : BProperty) (vs : VisitState)
    (hdepth : vs.guardStack.length < MAX_DEPTH) :
    (prop.rnaKind = none →
      (read_attribute (.other k) prop vs).1 = .ok .pnone ∧
      ((read_attribute (.other k) prop vs).2).logs = vs.logs ++ ["not implemented attribute"]) ∧
    (∀ pk, prop.rnaKind = some pk → pk ≠ PropKind.collection →
      (read_attribute (.other k) prop vs).1 = .error .valueError) := by
  have hde : depthExceeded (guardPush vs prop.name) = false := by
    simp only [depthExceeded, guardPush, List.length_append, List.length_cons,
      List.length_nil, MAX_DEPTH] at hdepth ⊢
    simp only [decide_eq_false_iff_not, not_lt]
    omega
  constructor
  · intro hnone
    have hcol : same_rna_collection prop = false := by
      simp [same_rna_collection, hnone]
    constructor
    · simp [read_attribute, hde, hcol, hnone, guardPop, logWarn]
    · have h1 : read_attribute (.other k) prop vs
          = (.ok .pnone, guardPop (logWarn (guardPush vs prop.name) "not implemented attribute")) := by
        simp [read_attribute, hde, hcol, hnone]
      rw [h1]
      simp [guardPop, logWarn, guardPush]
  · intro pk hpk hne
    have hcol : same_rna_collection prop = false := by
      simp [same_rna_collection, hpk]
      intro h
      exact hne h
    simp [read_attribute, hde, hcol, hpk, guardPop, logWarn]

/-- Witness for C5's amended theorem at a concrete metadata-free property
and an empty visit state. -/
theorem read_attribute_unsupported_amended_witness :
    ((⟨[], [], []⟩ : VisitState).guardStack.length < MAX_DEPTH) ∧
    ((({ name := "x", rnaKind := none, rnaIsIdSubclass := false,
         fixedType := ⟨false⟩, isReadonly := false } : BProperty).rnaKind = none →
      (read_attribute (.other 0)
        { name := "x", rnaKind := none, rnaIsIdSubclass := false,
          fixedType := ⟨false⟩, isReadonly := false } ⟨[], [], []⟩).1 = .ok .pnone ∧
      ((read_attribute (.other 0)
        { name := "x", rnaKind := none, rnaIsIdSubclass := false,
          fixedType := ⟨false⟩, isReadonly := false } ⟨[], [], []⟩).2).logs
        = ([] : List String) ++ ["not implemented attribute"]) ∧
    (∀ pk, ({ name := "x", rnaKind := none, rnaIsIdSubclass := false,
              fixedType := ⟨false⟩, isReadonly := false } : BProperty).rnaKind = some pk →
        pk ≠ PropKind.collection →
      (read_attribute (.other 0)
        { name := "x", rnaKind := none, rnaIsIdSubclass := false,
          fixedType := ⟨false⟩, isReadonly := false } ⟨[], [], []⟩).1 = .error .valueError)) :=
  ⟨by decide,
   read_attribute_unsupported_amended 0
     { name := "x", rnaKind := none, rnaIsIdSubclass := false,
       fixedType := ⟨false⟩, isReadonly := false }
     ⟨[], [], []⟩ (by decide)⟩

/-- C6: for every live value and every non-proxy shadow value obtained by
reading it through `read_attribute` with the same property metadata and
visit state, `diff_attribute` returns no delta: the live value is unchanged
between the read and the diff, so the re-read compares equal. -/
theorem diff_after_read_is_none (attr : BValue) (prop : BProperty)
    (vs vs2 : VisitState) (s : PValue)
    (hread : read_attribute attr prop vs = (.ok s, vs2))
    (hnp : s.isProxy = false) :
    (diff_attribute attr prop s vs).1 = .ok none := by
  unfold diff_attribute
  simp only [hnp, Bool.false_eq_true, if_false, hread]
  simp [pbeq_refl]

/-- Witness for C6 at a concrete builtin attribute and an empty visit
state. -/
theorem diff_after_read_is_none_witness :
    read_attribute (.builtin (.int 3))
      { name := "frame_current", rnaKind := some PropKind.plain, rnaIsIdSubclass := false,
        fixedType := ⟨false⟩, isReadonly := false } ⟨[], [], []⟩
      = (.ok (.scalar (.int 3)), ⟨[], [], []⟩) ∧
    (PValue.scalar (.int 3)).isProxy = false ∧
    (diff_attribute (.builtin (.int 3))
      { name := "frame_current", rnaKind := some PropKind.plain, rnaIsIdSubclass := false,
        fixedType := ⟨false⟩, isReadonly := false }
      (.scalar (.int 3)) ⟨[], [], []⟩).1 = .ok none :=
  ⟨by rfl, by rfl,
   diff_after_read_is_none _ _ _ _ _ (by rfl) (by rfl)⟩

/-- C8: for every non-proxy shadow value, `apply_attribute` returns the
delta's value as the new canonical value for the shadow proxy, whether or
not `to_blender` is set, and even when the attempted live assignment
fails (the failure is logged, not propagated). -/
theorem apply_attribute_returns_delta_value (parent : BValue) (key : PyKey)
    (proxy_value : PValue) (delta : Delta) (vs : VisitState) (to_blender : Bool)
    (proxyApplyResult : Except PyErr PValue) (setattrResult : Except PyErr Unit)
    (hnp : proxy_value.isProxy = false) :
    (apply_attribute parent key proxy_value delta vs to_blender proxyApplyResult
      setattrResult).1 = .ok delta.value := by
  cases to_blender <;> cases setattrResult <;> simp [apply_attribute, hnp]

/-- Witness for C8 at a concrete scalar shadow value, with `to_blender`
set and a failing live assignment. -/
theorem apply_attribute_returns_delta_value_witness :
    (PValue.scalar (.int 5)).isProxy = false ∧
    (apply_attribute (.builtin .pynone) (.str "count") (.scalar (.int 5))
      (.update (.scalar (.int 7))) ⟨[], [], []⟩ true (.error .otherError)
      (.error .typeError)).1 = .ok (Delta.update (.scalar (.int 7))).value :=
  ⟨by rfl,
   apply_attribute_returns_delta_value _ _ _ _ _ _ _ _ (by rfl)⟩

/-- C7: for every delta produced by diffing a live value against a
non-proxy shadow value, applying the delta through `apply_attribute`
returns the delta's value as the new shadow, and re-diffing the live value
against that new shadow yields no delta: apply-of-diff converges on the
live value. -/
theorem apply_of_diff_converges (item : BValue) (prop : BProperty) (a : PValue)
    (vs vs1 : VisitState) (d : Delta)
    (hnp : a.isProxy = false)
    (hdiff : diff_attribute item prop a vs = (.ok (some d), vs1))
    (parent : BValue) (key : PyKey) (tb : Bool)
    (par : Except PyErr PValue) (sar : Except PyErr Unit) :
    (apply_attribute parent key a d vs1 tb par sar).1 = .ok d.value ∧
    (diff_attribute item prop d.value vs).1 = .ok none := by
  refine ⟨by cases tb <;> cases sar <;> simp [apply_attribute, hnp], ?_⟩
  unfold diff_attribute at hdiff
  simp only [hnp, Bool.false_eq_true, if_false] at hdiff
  cases hread : read_attribute item prop vs with
  | mk r vs' =>
    rw [hread] at hdiff
    cases r with
    | error e => simp at hdiff
    | ok bv =>
      by_cases hb : pbeq bv a
      · simp [hb] at hdiff
      · simp only [hb, Bool.false_eq_true, if_false, Prod.mk.injEq, Except.ok.injEq,
          Option.some.injEq] at hdiff
        obtain ⟨hd, hvs⟩ := hdiff
        subst hd
        by_cases hbp : bv.isProxy
        · simp [diff_attribute, Delta.value, hbp, proxy_diff, hread, pbeq_refl]
        · simp [diff_attribute, Delta.value, hbp, hread, pbeq_refl]

/-- Witness for C7 at a concrete live value and differing scalar shadow. -/
theorem apply_of_diff_converges_witness :
    (PValue.scalar (.int 2)).isProxy = false ∧
    diff_attribute (.builtin (.int 1))
      { name := "frame_start", rnaKind := some PropKind.plain, rnaIsIdSubclass := false,
        fixedType := ⟨false⟩, isReadonly := false }
      (.scalar (.int 2)) ⟨[], [], []⟩
      = (.ok (some (.update (.scalar (.int 1)))), ⟨[], [], []⟩) ∧
    ((apply_attribute (.builtin .pynone) (.str "frame_start") (.scalar (.int 2))
        (.update (.scalar (.int 1))) ⟨[], [], []⟩ false (.error .otherError) (.ok ())).1
      = .ok (Delta.update (.scalar (.int 1))).value ∧
     (diff_attribute (.builtin (.int 1))
        { name := "frame_start", rnaKind := some PropKind.plain, rnaIsIdSubclass := false,
          fixedType := ⟨false⟩, isReadonly := false }
        (Delta.update (.scalar (.int 1))).value ⟨[], [], []⟩).1 = .ok none) :=
  ⟨by rfl, by rfl,
   apply_of_diff_converges _ _ _ _ _ _ (by rfl) (by rfl) _ _ _ _ _⟩
